import Mathlib

/-!
Shallow embedding of `app.py` (global-risk-dashboard).

The program loads a CSV into a pandas DataFrame `df`, precomputes global
aggregates (`global_fatalities`, `global_teisc`, `global_trend`) and an OLS
trendline trace, and serves a Dash app whose single callback
`update_dashboard(clickData, n_clicks)` recomputes six outputs
(map figure, trend figure, scatter figure, selected-region label,
fatalities KPI string, TEIS KPI string).

Numbers are modelled as rationals; pandas `NaN` (the mean of an empty
column) is modelled by `Option Rat` with `none` standing for NaN.
Chart construction delegated to plotly is modelled by the data that the
code feeds into each figure; purely cosmetic layout settings are dropped,
but every data-bearing argument (series, colors, opacity, uirevision,
trace identity) is kept.
-/

namespace RiskDash

/-- One row of the source table (columns of the CSV used by `app.py`). -/
structure Row where
  Country : String
  Year : Int
  TEIS : Rat
  fatalities : Rat
  GDP_growth_pct : Rat
deriving Repr, DecidableEq

/-- The value of `ctx.triggered_id` inside the callback: `"map-chart"`,
`"btn-reset"`, or `None` on the initial automatic call. -/
inductive TriggerId where
  | mapChart
  | btnReset
  | initialCall
deriving Repr, DecidableEq

/-- The OLS line computed externally by `px.scatter(..., trendline="ols")`
(statsmodels); out-of-scope collaborator, represented by its coefficients. -/
structure OLSLine where
  slope : Rat
  intercept : Rat
deriving Repr, DecidableEq

/-- `trendline_trace`: either the styled OLS trace extracted from
`trendline_fig.data[1]` (lines 27-32) or the empty `go.Scatter()`
fallback installed by the `except` branch (line 34). -/
inductive TrendTrace where
  | ols (line : OLSLine)
  | emptyTrace
deriving Repr, DecidableEq

/-- One entry of a per-`Year` group-by aggregate
(`groupby("Year").agg(TEIS=("TEIS","mean"), fatalities=("fatalities","sum"))`). -/
structure YearEntry where
  Year : Int
  TEIS : Rat
  fatalities : Rat
deriving Repr, DecidableEq

/-- The choropleth built at lines 176-180: its data is the per-country mean
TEIS table `map_agg`, and its layout carries `uirevision='constant'`. -/
structure MapFig where
  data : List (String × Rat)
  uirevision : String
deriving Repr, DecidableEq

/-- The scatter figure built at lines 191-200: the trendline trace added
first (line 193-194), then one marker per row of `df` with per-point color
and opacity lists and country hover text. -/
structure ScatterFig where
  trendline : TrendTrace
  xs : List Rat
  ys : List Rat
  colors : List String
  opacity : List Rat
  text : List String
deriving Repr, DecidableEq

/-- The six outputs returned by `update_dashboard` (line 206). The trend
figure is represented by the `trend_df` table that lines 183-185 plot. -/
structure ViewModel where
  map : MapFig
  trend : List YearEntry
  scatter : ScatterFig
  selectedLabel : String
  fatalitiesLabel : String
  teisLabel : String
deriving Repr, DecidableEq

/-- `series.sum()` on the `fatalities` column: iterative summation;
the sum of an empty column is `0`. -/
def sumFat (rows : List Row) : Rat :=
  rows.foldl (fun acc r => acc + r.fatalities) 0

/-- Iterative summation of the `TEIS` column. -/
def sumTEIS (rows : List Row) : Rat :=
  rows.foldl (fun acc r => acc + r.TEIS) 0

/-- `series.mean()` on the `TEIS` column: NaN (`none`) when the column is
empty, otherwise sum divided by count. -/
def meanTEIS (rows : List Row) : Option Rat :=
  if rows.isEmpty then none else some (sumTEIS rows / rows.length)

/-- `rows.groupby("Year").agg(TEIS=("TEIS","mean"), fatalities=("fatalities","sum")).reset_index()`
(lines 20-23 and 160-162): one entry per distinct `Year`, keys sorted
ascending (pandas `groupby` default `sort=True`), each entry holding the
group's mean TEIS and summed fatalities. -/
def yearlyAgg (rows : List Row) : List YearEntry :=
  ((rows.map (fun r => r.Year)).toFinset.sort (· ≤ ·)).map (fun y =>
    let grp := rows.filter (fun r => r.Year = y)
    { Year := y, TEIS := sumTEIS grp / grp.length, fatalities := sumFat grp })

/-- `df.groupby("Country")["TEIS"].mean().reset_index()` (line 176): one
entry per distinct `Country`, keys sorted ascending, value the group's
mean TEIS. -/
def mapAgg (rows : List Row) : List (String × Rat) :=
  ((rows.map (fun r => r.Country)).toFinset.sort (· ≤ ·)).map (fun c =>
    let grp := rows.filter (fun r => r.Country = c)
    (c, sumTEIS grp / grp.length))

/-- Rounding half-to-even, as Python `format` applies to floats. -/
def roundHalfEven (q : Rat) : Int :=
  if q - q.floor < 1/2 then q.floor
  else if 1/2 < q - q.floor then q.floor + 1
  else if 2 ∣ q.floor then q.floor else q.floor + 1

/-- Insert a comma after every three digits, working on the reversed
digit list (least-significant digit first). -/
def commaRev : List Char → List Char
  | a :: b :: c :: d :: rest => a :: b :: c :: ',' :: commaRev (d :: rest)
  | l => l

/-- Decimal digits of `n` with thousands separators. -/
def fmtGroup (n : Nat) : String :=
  String.mk (commaRev (toString n).toList.reverse).reverse

/-- Python `f"{x:,.0f}"`: round to an integer, thousands separators,
no decimals (line 206, fatalities KPI). -/
def fmtComma0f (q : Rat) : String :=
  let n := roundHalfEven q
  (if n < 0 then "-" else "") ++ fmtGroup n.natAbs

/-- Zero-pad to width three. -/
def pad3 (n : Nat) : String :=
  if n < 10 then "00" ++ toString n
  else if n < 100 then "0" ++ toString n
  else toString n

/-- Python `f"{x:.3f}"` (line 206, TEIS KPI): `"nan"` when the value is
NaN, otherwise three decimal places, rounding half-to-even. -/
def fmt3f : Option Rat → String
  | none => "nan"
  | some q =>
    let n := roundHalfEven (q * 1000)
    (if n < 0 then "-" else "") ++ toString (n.natAbs / 1000) ++ "." ++ pad3 (n.natAbs % 1000)

/-- The module-level state read by the callback: `df` and the aggregates
precomputed at lines 17-34, immutable after startup. -/
structure Globals where
  df : List Row
  global_fatalities : Rat
  global_teisc : Option Rat
  global_trend : List YearEntry
  trendline_trace : TrendTrace
deriving Repr, DecidableEq

/-- Figure assembly shared by both branches of the callback
(lines 174-206): map from the unfiltered `df` with `uirevision='constant'`,
trend from `trend_df`, scatter from the unfiltered `df` with the branch's
colors/opacity and the startup `trendline_trace` (a plotly trace object is
always truthy, so line 193's `if trendline_trace:` always adds it), and the
three formatted labels. -/
def buildOutputs (g : Globals) (trend_df : List YearEntry) (sel : String)
    (kpi_fat : Rat) (kpi_teis : Option Rat)
    (colors : List String) (opacity : List Rat) : ViewModel :=
  { map := { data := mapAgg g.df, uirevision := "constant" }
    trend := trend_df
    scatter :=
      { trendline := g.trendline_trace
        xs := g.df.map (fun r => r.TEIS)
        ys := g.df.map (fun r => r.GDP_growth_pct)
        colors := colors
        opacity := opacity
        text := g.df.map (fun r => r.Country) }
    selectedLabel := sel
    fatalitiesLabel := fmtComma0f kpi_fat
    teisLabel := fmt3f kpi_teis }

/-- Default / reset branch (lines 141-149): global label, precomputed
aggregates, all scatter points steelblue at opacity 0.6. -/
def globalBranch (g : Globals) : ViewModel :=
  buildOutputs g g.global_trend "Global View" g.global_fatalities g.global_teisc
    (List.replicate g.df.length "steelblue")
    (List.replicate g.df.length ((6 : Rat)/10))

/-- Filtered branch (lines 152-172): filter `df` to the clicked country;
trend falls back to `global_trend` when the subset is empty; KPIs from the
(possibly empty) subset; baseline lightgrey/0.3 styling overridden to
red/1.0 at exactly the indices whose row's `Country` equals the selection
(the loop over `df.index[df["Country"] == selected_country]` on a default
RangeIndex, rendered here as the equivalent pointwise conditional). -/
def filteredBranch (g : Globals) (c : String) : ViewModel :=
  let df_filtered := g.df.filter (fun r => r.Country = c)
  let trend_df := if df_filtered.isEmpty then g.global_trend else yearlyAgg df_filtered
  let kpi_fat := sumFat df_filtered
  let kpi_teis := meanTEIS df_filtered
  let colors := g.df.map (fun r => if r.Country = c then "red" else "lightgrey")
  let opacity := g.df.map (fun r => if r.Country = c then (1 : Rat) else 3/10)
  buildOutputs g trend_df c kpi_fat kpi_teis colors opacity

/-- `update_dashboard(clickData, n_clicks)` (lines 135-206). `clickData` is
modelled by the location string of `clickData["points"][0]["location"]`
(`none` when absent). The dispatch mirrors line 141:
`if not clickData or triggered_id == "btn-reset"`. -/
def update_dashboard (g : Globals) (clickData : Option String)
    (triggered_id : TriggerId) : ViewModel :=
  match clickData, triggered_id with
  | none, _ => globalBranch g
  | some _, TriggerId.btnReset => globalBranch g
  | some c, _ => filteredBranch g c

/-- One callback invocation as an explicit state transition: the body of
`update_dashboard` contains no assignment to any module-level name
(lines 135-206 only read `df`, `global_trend`, `global_fatalities`,
`global_teisc`, `trendline_trace`), so the module state after the call is
the state before it. -/
def controllerStep (g : Globals) (clickData : Option String)
    (triggered_id : TriggerId) : ViewModel × Globals :=
  (update_dashboard g clickData triggered_id, g)

/-!
Exception-aware layer. pandas raises `KeyError` when a column name is
absent; `pd.DataFrame()` (the load-failure fallback, line 15) has no
columns at all. A DataFrame is therefore a row list together with its
column list, and each column access is an `Except` step in the order the
Python source evaluates them.
-/

/-- A pandas DataFrame: rows plus the set of column names present. -/
structure RawFrame where
  rows : List Row
  cols : List String
deriving Repr, DecidableEq

/-- The five columns `app.py` touches. -/
def allCols : List String := ["Country", "Year", "TEIS", "fatalities", "GDP_growth_pct"]

/-- `frame[name]`: `KeyError` when the column is absent. -/
def requireCol (f : RawFrame) (name : String) : Except String Unit :=
  if name ∈ f.cols then Except.ok () else Except.error ("KeyError: " ++ name)

/-- Lines 10-15: `pd.read_csv(...)` inside `try`/`except`. `none` models a
raised read error, on which the fallback `df = pd.DataFrame()` — an empty
frame with NO columns — is installed. -/
def loadDataset (readResult : Option RawFrame) : RawFrame :=
  match readResult with
  | some f => f
  | none => { rows := [], cols := [] }

/-- Startup (lines 10-34): load, then precompute
`global_fatalities = df["fatalities"].sum()` (line 18),
`global_teisc = df["TEIS"].mean()` (line 19),
`global_trend = df.groupby("Year").agg(TEIS=("TEIS","mean"), fatalities=("fatalities","sum"))`
(lines 20-23), each unguarded column access in source order. The trendline
block (lines 27-34) sits in its own `try`/`except`; `ols` is the external
fitter's result, `none` standing for any raised fit error, mapped to the
empty fallback trace. Module-level exceptions abort the process. -/
def startupE (readResult : Option RawFrame) (ols : Option OLSLine) :
    Except String Globals := do
  let df := loadDataset readResult
  let _ ← requireCol df "fatalities"
  let _ ← requireCol df "TEIS"
  let _ ← requireCol df "Year"
  let _ ← requireCol df "TEIS"
  let _ ← requireCol df "fatalities"
  Except.ok
    { df := df.rows
      global_fatalities := sumFat df.rows
      global_teisc := meanTEIS df.rows
      global_trend := yearlyAgg df.rows
      trendline_trace :=
        match ols with
        | some l => TrendTrace.ols l
        | none => TrendTrace.emptyTrace }

/-- Module state with the frame's column list retained, as the callback's
column accesses see it. -/
structure GlobalsE where
  df : RawFrame
  global_fatalities : Rat
  global_teisc : Option Rat
  global_trend : List YearEntry
  trendline_trace : TrendTrace
deriving Repr, DecidableEq

/-- `startupE` keeping the column list. -/
def startupFullE (readResult : Option RawFrame) (ols : Option OLSLine) :
    Except String GlobalsE := do
  let df := loadDataset readResult
  let _ ← requireCol df "fatalities"
  let _ ← requireCol df "TEIS"
  let _ ← requireCol df "Year"
  let _ ← requireCol df "TEIS"
  let _ ← requireCol df "fatalities"
  Except.ok
    { df := df
      global_fatalities := sumFat df.rows
      global_teisc := meanTEIS df.rows
      global_trend := yearlyAgg df.rows
      trendline_trace :=
        match ols with
        | some l => TrendTrace.ols l
        | none => TrendTrace.emptyTrace }

/-- Forget the column list. -/
def GlobalsE.toGlobals (g : GlobalsE) : Globals :=
  { df := g.df.rows
    global_fatalities := g.global_fatalities
    global_teisc := g.global_teisc
    global_trend := g.global_trend
    trendline_trace := g.trendline_trace }

/-- `update_dashboard` with every column access of the source made
explicit, in evaluation order. The callback body has no `try`/`except`, so
any `KeyError` propagates to the caller (Dash). Filtered branch: line 154
`df["Country"]`; lines 160-162 `df_filtered.groupby("Year").agg(...)`
(only when the subset is non-empty); line 164 `df_filtered["fatalities"]`;
line 165 `df_filtered["TEIS"]`; line 170 `df["Country"]`. Common tail:
line 176 `df.groupby("Country")["TEIS"]`; line 197 `df["TEIS"]`,
`df["GDP_growth_pct"]`; line 199 `df["Country"]`. -/
def update_dashboardE (g : GlobalsE) (clickData : Option String)
    (triggered_id : TriggerId) : Except String ViewModel := do
  let df := g.df
  let branch : Except String
      (String × List YearEntry × Rat × Option Rat × List String × List Rat) :=
    match clickData, triggered_id with
    | none, _ =>
        Except.ok ("Global View", g.global_trend, g.global_fatalities, g.global_teisc,
          List.replicate df.rows.length "steelblue",
          List.replicate df.rows.length ((6 : Rat)/10))
    | some _, TriggerId.btnReset =>
        Except.ok ("Global View", g.global_trend, g.global_fatalities, g.global_teisc,
          List.replicate df.rows.length "steelblue",
          List.replicate df.rows.length ((6 : Rat)/10))
    | some c, _ => do
        let _ ← requireCol df "Country"
        let df_filtered := df.rows.filter (fun r => r.Country = c)
        let trend_df ←
          if df_filtered.isEmpty then Except.ok g.global_trend
          else do
            let _ ← requireCol df "Year"
            let _ ← requireCol df "TEIS"
            let _ ← requireCol df "fatalities"
            Except.ok (yearlyAgg df_filtered)
        let _ ← requireCol df "fatalities"
        let kpi_fat := sumFat df_filtered
        let _ ← requireCol df "TEIS"
        let kpi_teis := meanTEIS df_filtered
        let _ ← requireCol df "Country"
        Except.ok (c, trend_df, kpi_fat, kpi_teis,
          df.rows.map (fun r => if r.Country = c then "red" else "lightgrey"),
          df.rows.map (fun r => if r.Country = c then (1 : Rat) else 3/10))
  let (sel, trend_df, kpi_fat, kpi_teis, colors, opacity) ← branch
  let _ ← requireCol df "Country"
  let _ ← requireCol df "TEIS"
  let _ ← requireCol df "TEIS"
  let _ ← requireCol df "GDP_growth_pct"
  let _ ← requireCol df "Country"
  Except.ok (buildOutputs g.toGlobals trend_df sel kpi_fat kpi_teis colors opacity)

/-! Concrete data used by the witness theorems. -/

/-- Example row (spec §8 example, country "A"). -/
def exRowA : Row :=
  { Country := "A", Year := 2020, TEIS := 1/2, fatalities := 10, GDP_growth_pct := 2 }

/-- Example row (spec §8 example, country "B"). -/
def exRowB : Row :=
  { Country := "B", Year := 2020, TEIS := 9/10, fatalities := 100, GDP_growth_pct := -1 }

/-- Example module state over the two-row dataset. -/
def exG : Globals :=
  { df := [exRowA, exRowB]
    global_fatalities := sumFat [exRowA, exRowB]
    global_teisc := meanTEIS [exRowA, exRowB]
    global_trend := yearlyAgg [exRowA, exRowB]
    trendline_trace := TrendTrace.emptyTrace }

/-- Example module state with the full column list retained. -/
def exGE : GlobalsE :=
  { df := { rows := [exRowA, exRowB], cols := allCols }
    global_fatalities := sumFat [exRowA, exRowB]
    global_teisc := meanTEIS [exRowA, exRowB]
    global_trend := yearlyAgg [exRowA, exRowB]
    trendline_trace := TrendTrace.emptyTrace }

/-- A frame that survives startup (it has `Country`, `Year`, `TEIS`,
`fatalities`, the only columns lines 18-23 touch) but lacks
`GDP_growth_pct`. -/
def cexFrame : RawFrame :=
  { rows := [exRowA], cols := ["Country", "Year", "TEIS", "fatalities"] }

/-- The module state `startupFullE` builds from `cexFrame`. -/
def cexG : GlobalsE :=
  { df := cexFrame
    global_fatalities := sumFat cexFrame.rows
    global_teisc := meanTEIS cexFrame.rows
    global_trend := yearlyAgg cexFrame.rows
    trendline_trace := TrendTrace.emptyTrace }

/-! Helper lemmas. -/

lemma ratFloor_eq_floor (q : Rat) : Rat.floor q = ⌊q⌋ := rfl

lemma roundHalfEven_intCast (n : Int) : roundHalfEven (n : Rat) = n := by
  have hfl : Rat.floor ((n : Int) : Rat) = n := by
    rw [ratFloor_eq_floor, Int.floor_intCast]
  simp only [roundHalfEven, hfl]
  norm_num

lemma roundHalfEven_zero : roundHalfEven (0 : Rat) = 0 := by
  have h := roundHalfEven_intCast 0
  simpa using h

lemma fmtComma0f_zero : fmtComma0f (0 : Rat) = "0" := by
  simp only [fmtComma0f, roundHalfEven_zero]
  rfl

lemma fmt3f_none : fmt3f none = "nan" := rfl

/-- Once the constructors of `clickData` and `triggered_id` rule out the
global branch, the callback is the filtered branch. -/
lemma update_dashboard_filtered (g : Globals) (c : String) (trig : TriggerId)
    (h : trig ≠ TriggerId.btnReset) :
    update_dashboard g (some c) trig = filteredBranch g c := by
  cases trig with
  | mapChart => rfl
  | btnReset => exact absurd rfl h
  | initialCall => rfl

/-- The map output is the same record for every input. -/
lemma update_dashboard_map (g : Globals) (c : Option String) (t : TriggerId) :
    (update_dashboard g c t).map = { data := mapAgg g.df, uirevision := "constant" } := by
  cases c <;> cases t <;> rfl

/-- The scatter's first trace is the startup trendline for every input. -/
lemma update_dashboard_trendline (g : Globals) (c : Option String) (t : TriggerId) :
    (update_dashboard g c t).scatter.trendline = g.trendline_trace := by
  cases c <;> cases t <;> rfl

lemma foldl_add_sum (f : Row → Rat) (rows : List Row) :
    ∀ a : Rat, rows.foldl (fun acc r => acc + f r) a = a + (rows.map f).sum := by
  induction rows with
  | nil => intro a; simp
  | cons r t ih => intro a; simp [ih, add_assoc]

lemma sumFat_eq_sum (rows : List Row) :
    sumFat rows = (rows.map (fun r => r.fatalities)).sum := by
  simpa using foldl_add_sum (fun r => r.fatalities) rows 0

lemma sumTEIS_eq_sum (rows : List Row) :
    sumTEIS rows = (rows.map (fun r => r.TEIS)).sum := by
  simpa using foldl_add_sum (fun r => r.TEIS) rows 0

lemma yearlyAgg_years (rows : List Row) :
    (yearlyAgg rows).map (fun e => e.Year)
      = (rows.map (fun r => r.Year)).toFinset.sort (· ≤ ·) := by
  unfold yearlyAgg
  rw [List.map_map]
  show List.map (fun y => y) ((rows.map (fun r => r.Year)).toFinset.sort (· ≤ ·)) = _
  simp

lemma zip_self_map (rows : List Row) (f : Row → String × Rat) :
    rows.zip (rows.map f) = rows.map (fun r => (r, f r)) := by
  induction rows with
  | nil => rfl
  | cons r t ih => simp [ih]

/-! The claims. -/

/-- C1 (code_bug): the spec requires that a failed read degrade to an empty
Dataset and that startup still complete with zero-valued aggregates. The
`try`/`except` at lines 10-15 does install the empty `pd.DataFrame()`
without raising, but that frame has no columns, so the very next statement
`df["fatalities"].sum()` (line 18) raises `KeyError` and the process never
reaches a renderable state. -/
theorem C1_read_failure_crashes_startup (ols : Option OLSLine) :
    loadDataset none = { rows := [], cols := [] }
    ∧ startupE none ols = Except.error "KeyError: fatalities" :=
  ⟨rfl, rfl⟩

/-- C6 (confirmed): the map figure — its choropleth data, built by
`df.groupby("Country")["TEIS"].mean()` on the unfiltered dataset, and its
`uirevision='constant'` view-state token — is identical for any two
Controller invocations; it does not depend on the Selection input. -/
theorem C6_map_independent_of_selection (g : Globals)
    (c1 c2 : Option String) (t1 t2 : TriggerId) :
    (update_dashboard g c1 t1).map = (update_dashboard g c2 t2).map
    ∧ (update_dashboard g c1 t1).map.data = mapAgg g.df
    ∧ (update_dashboard g c1 t1).map.uirevision = "constant" := by
  refine ⟨?_, ?_, ?_⟩ <;>
    simp [update_dashboard_map]

/-- C7 (confirmed): every ViewModel's scatter contains the single
`trendline_trace` computed once at startup (lines 27-34); it is the same
fitted object in every invocation, never recomputed per-selection. -/
theorem C7_regression_overlay_constant (g : Globals)
    (c c' : Option String) (t t' : TriggerId) :
    (update_dashboard g c t).scatter.trendline = g.trendline_trace
    ∧ (update_dashboard g c t).scatter.trendline
        = (update_dashboard g c' t').scatter.trendline := by
  refine ⟨update_dashboard_trendline g c t, ?_⟩
  rw [update_dashboard_trendline, update_dashboard_trendline]

/-- C8 (confirmed): with the reset trigger, retained click data is ignored
(line 141 tests `triggered_id == "btn-reset"` before using `clickData`):
the ViewModel equals the one produced with no click data at all, with the
"Global View" label, the global KPI values, the global trend series and
baseline steelblue/0.6 scatter styling. -/
theorem C8_reset_ignores_click (g : Globals) (c : String) :
    update_dashboard g (some c) TriggerId.btnReset
      = update_dashboard g none TriggerId.btnReset
    ∧ (update_dashboard g (some c) TriggerId.btnReset).selectedLabel = "Global View"
    ∧ (update_dashboard g (some c) TriggerId.btnReset).trend = g.global_trend
    ∧ (update_dashboard g (some c) TriggerId.btnReset).fatalitiesLabel
        = fmtComma0f g.global_fatalities
    ∧ (update_dashboard g (some c) TriggerId.btnReset).teisLabel
        = fmt3f g.global_teisc
    ∧ (update_dashboard g (some c) TriggerId.btnReset).scatter.colors
        = List.replicate g.df.length "steelblue"
    ∧ (update_dashboard g (some c) TriggerId.btnReset).scatter.opacity
        = List.replicate g.df.length ((6 : Rat)/10) :=
  ⟨rfl, rfl, rfl, rfl, rfl, rfl, rfl⟩

/-- C9 (confirmed): one callback invocation leaves the module state exactly
as it found it (the body of `update_dashboard` assigns no module-level
name), so a second invocation with the identical inputs produces the
identical ViewModel and state. -/
theorem C9_controller_idempotent (g : Globals) (clickData : Option String)
    (trig : TriggerId) :
    (controllerStep g clickData trig).2 = g
    ∧ controllerStep (controllerStep g clickData trig).2 clickData trig
        = controllerStep g clickData trig :=
  ⟨rfl, rfl⟩

/-- C3 (confirmed): when the clicked country matches no row, lines 157-158
fall back to the global trend series while lines 164-165 still compute the
KPIs from the empty filtered subset: the sum is 0 and the mean is NaN, so
the labels are "0" and "nan" alongside the global trend. -/
theorem C3_empty_subset_mixed_outputs (g : Globals) (c : String)
    (trig : TriggerId) (h1 : trig ≠ TriggerId.btnReset)
    (h2 : g.df.filter (fun r => r.Country = c) = []) :
    (update_dashboard g (some c) trig).trend = g.global_trend
    ∧ (update_dashboard g (some c) trig).fatalitiesLabel
        = fmtComma0f (sumFat (g.df.filter (fun r => r.Country = c)))
    ∧ (update_dashboard g (some c) trig).teisLabel
        = fmt3f (meanTEIS (g.df.filter (fun r => r.Country = c)))
    ∧ (update_dashboard g (some c) trig).fatalitiesLabel = "0"
    ∧ (update_dashboard g (some c) trig).teisLabel = "nan" := by
  rw [update_dashboard_filtered g c trig h1]
  refine ⟨?_, ?_, ?_, ?_, ?_⟩ <;>
    simp [filteredBranch, buildOutputs, h2, sumFat, meanTEIS,
      fmtComma0f_zero, fmt3f_none]

/-- Witness for C3: two-row dataset, clicked country "C" absent. -/
theorem C3_empty_subset_mixed_outputs_witness :
    (TriggerId.mapChart ≠ TriggerId.btnReset
      ∧ exG.df.filter (fun r => r.Country = "C") = [])
    ∧ ((update_dashboard exG (some "C") TriggerId.mapChart).trend = exG.global_trend
      ∧ (update_dashboard exG (some "C") TriggerId.mapChart).fatalitiesLabel
          = fmtComma0f (sumFat (exG.df.filter (fun r => r.Country = "C")))
      ∧ (update_dashboard exG (some "C") TriggerId.mapChart).teisLabel
          = fmt3f (meanTEIS (exG.df.filter (fun r => r.Country = "C")))
      ∧ (update_dashboard exG (some "C") TriggerId.mapChart).fatalitiesLabel = "0"
      ∧ (update_dashboard exG (some "C") TriggerId.mapChart).teisLabel = "nan") :=
  ⟨⟨by decide, rfl⟩,
    C3_empty_subset_mixed_outputs exG "C" TriggerId.mapChart (by decide) rfl⟩

/-- C10 (confirmed): for a click on a location matching no row of a
non-empty dataset, the Controller returns the clicked string verbatim as
the label, `f"{0.0:,.0f}" = "0"` as the fatalities KPI and
`f"{nan:.3f}" = "nan"` as the TEIS KPI. -/
theorem C10_unmatched_click_labels (g : Globals) (c : String)
    (trig : TriggerId) (h1 : trig ≠ TriggerId.btnReset) (h2 : g.df ≠ [])
    (h3 : g.df.filter (fun r => r.Country = c) = []) :
    (update_dashboard g (some c) trig).selectedLabel = c
    ∧ (update_dashboard g (some c) trig).fatalitiesLabel = "0"
    ∧ (update_dashboard g (some c) trig).teisLabel = "nan" := by
  rw [update_dashboard_filtered g c trig h1]
  refine ⟨rfl, ?_, ?_⟩ <;>
    simp [filteredBranch, buildOutputs, h3, sumFat, meanTEIS,
      fmtComma0f_zero, fmt3f_none]

/-- Witness for C10: two-row dataset, clicked country "C" absent. -/
theorem C10_unmatched_click_labels_witness :
    (TriggerId.mapChart ≠ TriggerId.btnReset
      ∧ exG.df ≠ []
      ∧ exG.df.filter (fun r => r.Country = "C") = [])
    ∧ ((update_dashboard exG (some "C") TriggerId.mapChart).selectedLabel = "C"
      ∧ (update_dashboard exG (some "C") TriggerId.mapChart).fatalitiesLabel = "0"
      ∧ (update_dashboard exG (some "C") TriggerId.mapChart).teisLabel = "nan") :=
  ⟨⟨by decide, by decide, rfl⟩,
    C10_unmatched_click_labels exG "C" TriggerId.mapChart (by decide) (by decide) rfl⟩

/-- C5 (confirmed): `global_fatalities` is the sum of `fatalities` over all
rows, and the per-year aggregate has exactly one entry per distinct `Year`
(keys without duplicates, covering exactly the years present), sorted
ascending, each entry carrying the year's arithmetic mean of `TEIS` and sum
of `fatalities`. -/
theorem C5_global_aggregates (rows : List Row) :
    sumFat rows = (rows.map (fun r => r.fatalities)).sum
    ∧ ((yearlyAgg rows).map (fun e => e.Year)).Nodup
    ∧ List.Sorted (fun a b => a ≤ b) ((yearlyAgg rows).map (fun e => e.Year))
    ∧ (∀ y : Int,
        y ∈ (yearlyAgg rows).map (fun e => e.Year) ↔ y ∈ rows.map (fun r => r.Year))
    ∧ ∀ e ∈ yearlyAgg rows,
        e.TEIS = ((rows.filter (fun r => r.Year = e.Year)).map (fun r => r.TEIS)).sum
            / ((rows.filter (fun r => r.Year = e.Year)).length : Rat)
        ∧ e.fatalities
            = ((rows.filter (fun r => r.Year = e.Year)).map (fun r => r.fatalities)).sum := by
  refine ⟨sumFat_eq_sum rows, ?_, ?_, ?_, ?_⟩
  · rw [yearlyAgg_years]
    exact Finset.sort_nodup _ _
  · rw [yearlyAgg_years]
    exact Finset.sort_sorted _ _
  · intro y
    rw [yearlyAgg_years, Finset.mem_sort, List.mem_toFinset]
  · intro e he
    obtain ⟨y, hy, rfl⟩ := List.mem_map.mp he
    exact ⟨by simp [sumTEIS_eq_sum], by simp [sumFat_eq_sum]⟩

/-- C4 (confirmed): in the filtered state the scatter keeps every row of
`df` (all three per-point lists have length `len(df)`), the points styled
(red, opacity 1.0) are exactly as many as the rows whose `Country` equals
the selection under exact string equality — duplicates included — and
every other point is (lightgrey, 0.3). -/
theorem C4_scatter_highlight (g : Globals) (c : String) (trig : TriggerId)
    (h : trig ≠ TriggerId.btnReset) :
    (update_dashboard g (some c) trig).scatter.xs.length = g.df.length
    ∧ (update_dashboard g (some c) trig).scatter.colors.length = g.df.length
    ∧ (update_dashboard g (some c) trig).scatter.opacity.length = g.df.length
    ∧ ((update_dashboard g (some c) trig).scatter.colors.zip
        (update_dashboard g (some c) trig).scatter.opacity).countP
          (fun p => decide (p.1 = "red" ∧ p.2 = 1))
        = (g.df.filter (fun r => r.Country = c)).length
    ∧ (∀ p ∈ (update_dashboard g (some c) trig).scatter.colors.zip
          (update_dashboard g (some c) trig).scatter.opacity,
        p = ("red", (1 : Rat)) ∨ p = ("lightgrey", (3 : Rat)/10))
    ∧ ∀ q ∈ g.df.zip ((update_dashboard g (some c) trig).scatter.colors.zip
          (update_dashboard g (some c) trig).scatter.opacity),
        (q.1.Country = c → q.2 = ("red", (1 : Rat)))
        ∧ (q.1.Country ≠ c → q.2 = ("lightgrey", (3 : Rat)/10)) := by
  rw [update_dashboard_filtered g c trig h]
  have hcol : (filteredBranch g c).scatter.colors
      = g.df.map (fun r => if r.Country = c then "red" else "lightgrey") := rfl
  have hop : (filteredBranch g c).scatter.opacity
      = g.df.map (fun r => if r.Country = c then (1 : Rat) else 3/10) := rfl
  have hxs : (filteredBranch g c).scatter.xs = g.df.map (fun r => r.TEIS) := rfl
  rw [hcol, hop, hxs]
  have hfun : (fun r : Row =>
        ((if r.Country = c then "red" else "lightgrey"),
          (if r.Country = c then (1 : Rat) else 3/10)))
      = fun r : Row =>
        if r.Country = c then (("red", (1 : Rat)) : String × Rat)
        else ("lightgrey", 3/10) := by
    funext r
    by_cases hr : r.Country = c <;> simp [hr]
  have hzip : (g.df.map (fun r => if r.Country = c then "red" else "lightgrey")).zip
      (g.df.map (fun r => if r.Country = c then (1 : Rat) else 3/10))
      = g.df.map (fun r =>
          if r.Country = c then (("red", (1 : Rat)) : String × Rat)
          else ("lightgrey", 3/10)) := by
    rw [List.zip_map', hfun]
  rw [hzip]
  refine ⟨by simp, by simp, by simp, ?_, ?_, ?_⟩
  · rw [List.countP_map, ← List.countP_eq_length_filter]
    apply List.countP_congr
    intro r _
    by_cases hr : r.Country = c <;> simp [hr]
  · intro p hp
    obtain ⟨r, hr, rfl⟩ := List.mem_map.mp hp
    by_cases hc : r.Country = c
    · exact Or.inl (by simp [hc])
    · exact Or.inr (by simp [hc])
  · rw [zip_self_map]
    intro q hq
    obtain ⟨r, hr, rfl⟩ := List.mem_map.mp hq
    constructor
    · intro hc
      have hc' : r.Country = c := hc
      simp [hc']
    · intro hc
      have hc' : ¬ r.Country = c := hc
      simp [hc']

/-- Witness for C4: selection "B" over the two-row dataset. -/
theorem C4_scatter_highlight_witness :
    (TriggerId.mapChart ≠ TriggerId.btnReset)
    ∧ ((update_dashboard exG (some "B") TriggerId.mapChart).scatter.xs.length
          = exG.df.length
      ∧ (update_dashboard exG (some "B") TriggerId.mapChart).scatter.colors.length
          = exG.df.length
      ∧ (update_dashboard exG (some "B") TriggerId.mapChart).scatter.opacity.length
          = exG.df.length
      ∧ ((update_dashboard exG (some "B") TriggerId.mapChart).scatter.colors.zip
          (update_dashboard exG (some "B") TriggerId.mapChart).scatter.opacity).countP
            (fun p => decide (p.1 = "red" ∧ p.2 = 1))
          = (exG.df.filter (fun r => r.Country = "B")).length
      ∧ (∀ p ∈ (update_dashboard exG (some "B") TriggerId.mapChart).scatter.colors.zip
            (update_dashboard exG (some "B") TriggerId.mapChart).scatter.opacity,
          p = ("red", (1 : Rat)) ∨ p = ("lightgrey", (3 : Rat)/10))
      ∧ ∀ q ∈ exG.df.zip
            ((update_dashboard exG (some "B") TriggerId.mapChart).scatter.colors.zip
              (update_dashboard exG (some "B") TriggerId.mapChart).scatter.opacity),
          (q.1.Country = "B" → q.2 = ("red", (1 : Rat)))
          ∧ (q.1.Country ≠ "B" → q.2 = ("lightgrey", (3 : Rat)/10))) :=
  ⟨by decide, C4_scatter_highlight exG "B" TriggerId.mapChart (by decide)⟩

/-- C2 (corrected): as long as the frame carries all five referenced
columns — even with zero rows — the callback returns the full six-output
ViewModel and never throws; the unguarded column accesses are then all
`ok` and the exception-aware embedding agrees with the pure one. -/
theorem C2_schema_complete_no_throw (g : GlobalsE)
    (h : ∀ col ∈ allCols, col ∈ g.df.cols) (clickData : Option String)
    (trig : TriggerId) :
    update_dashboardE g clickData trig
      = Except.ok (update_dashboard g.toGlobals clickData trig) := by
  have hCountry : requireCol g.df "Country" = Except.ok () := by
    simp [requireCol, h "Country" (by simp [allCols])]
  have hYear : requireCol g.df "Year" = Except.ok () := by
    simp [requireCol, h "Year" (by simp [allCols])]
  have hTEIS : requireCol g.df "TEIS" = Except.ok () := by
    simp [requireCol, h "TEIS" (by simp [allCols])]
  have hFat : requireCol g.df "fatalities" = Except.ok () := by
    simp [requireCol, h "fatalities" (by simp [allCols])]
  have hGDP : requireCol g.df "GDP_growth_pct" = Except.ok () := by
    simp [requireCol, h "GDP_growth_pct" (by simp [allCols])]
  cases clickData with
  | none =>
      simp only [update_dashboardE, update_dashboard, globalBranch,
        GlobalsE.toGlobals, hCountry, hTEIS, hGDP]
      rfl
  | some c =>
      cases trig with
      | btnReset =>
          simp only [update_dashboardE, update_dashboard, globalBranch,
            GlobalsE.toGlobals, hCountry, hTEIS, hGDP]
          rfl
      | mapChart =>
          simp only [update_dashboardE, update_dashboard, filteredBranch,
            GlobalsE.toGlobals, hCountry, hYear, hTEIS, hFat, hGDP]
          by_cases hE : (g.df.rows.filter (fun r => r.Country = c)).isEmpty
          · simp only [hE, if_true]
            rfl
          · simp only [hE, if_false, Bool.false_eq_true]
            rfl
      | initialCall =>
          simp only [update_dashboardE, update_dashboard, filteredBranch,
            GlobalsE.toGlobals, hCountry, hYear, hTEIS, hFat, hGDP]
          by_cases hE : (g.df.rows.filter (fun r => r.Country = c)).isEmpty
          · simp only [hE, if_true]
            rfl
          · simp only [hE, if_false, Bool.false_eq_true]
            rfl

/-- Witness for C2: complete schema, selection "B". -/
theorem C2_schema_complete_no_throw_witness :
    (∀ col ∈ allCols, col ∈ exGE.df.cols)
    ∧ update_dashboardE exGE (some "B") TriggerId.mapChart
        = Except.ok (update_dashboard exGE.toGlobals (some "B") TriggerId.mapChart) :=
  ⟨by decide,
    C2_schema_complete_no_throw exGE (by decide) (some "B") TriggerId.mapChart⟩

/-- Counterexample to C2 as stated: a frame without `GDP_growth_pct`
passes startup (lines 18-23 only need `fatalities`, `TEIS`, `Year`; the
trendline `try` at lines 27-34 swallows its own failure), yet every
invocation of the callback raises `KeyError: GDP_growth_pct` at line 197
— the exception escapes the Controller boundary. -/
theorem C2_missing_column_throws :
    startupFullE (some cexFrame) none = Except.ok cexG
    ∧ update_dashboardE cexG none TriggerId.initialCall
        = Except.error "KeyError: GDP_growth_pct" :=
  ⟨rfl, rfl⟩

end RiskDash
